import Mathlib

/-
Verification of the fast-path select operator
(`tremor-pipeline/src/op/trickle/simple_select.rs`).

The operator forwards an event unchanged when its optional `where` and
`having` guard clauses both pass, drops it when a guard evaluates to
boolean `false`, and fails with a typed error when a guard evaluates to
a non-boolean value.  The guard-expression interpreter, the `srs`
statement container and the event/result types live in the
`tremor-script` / `tremor-pipeline` support crates outside the verified
slice, so they are modelled here from the specification; the operator
logic itself (`with_stmt`, `on_event`) is translated line by line from
the source.
-/

set_option autoImplicit false

namespace TremorSimpleSelect

/-- Modelled from the spec: runtime values of the expression language
(`tremor_value::Value`).  Only the evaluator's result matters to the
operator; `as_bool` succeeds exactly on boolean values. -/
inductive Value where
  | null : Value
  | bool : Bool → Value
  | int : Int → Value
  | str : String → Value
  | list : List Value → Value
  | obj : List (String × Value) → Value

/-- Boolean view of a runtime value: `some b` exactly when the value is
the boolean `b`, otherwise `none` (the non-boolean case the guard gate
must reject). -/
def Value.as_bool : Value → Option Bool
  | .bool b => some b
  | _ => none

/-- Lookup of a field in an object's field list (first match wins). -/
def lookupField : List (String × Value) → String → Option Value
  | [], _ => none
  | (k, v) :: rest, key => if k = key then some v else lookupField rest key

/-- Field access on a runtime value: defined on objects only. -/
def Value.objGet : Value → String → Option Value
  | .obj fields, key => lookupField fields key
  | _, _ => none

/-- Modelled from the spec: guard expressions (`where`/`having`) are a
boolean-typed sub-tree of the statement AST, a tagged variant over node
kinds (literal, constant reference, path access into event data /
metadata / state, a context builtin, operator application, and a nested
invocation that consumes recursion depth). -/
inductive Expr where
  | lit : Value → Expr
  | constIdx : Nat → Expr
  | eventField : String → Expr
  | metaField : String → Expr
  | stateField : String → Expr
  | ingestNs : Expr
  | gt : Expr → Expr → Expr
  | conj : Expr → Expr → Expr
  | neg : Expr → Expr
  | call : Expr → Expr

/-- Select statement AST node (`tremor_script::ast::Select`): projection
target, optional where-clause, optional having-clause, and the windowing
and grouping constructs the fast path assumes absent but never checks. -/
structure Select where
  target : String
  maybe_where : Option Expr
  maybe_having : Option Expr
  windows : List String
  maybe_group_by : Option String

/-- Select statement together with its support data
(`tremor_script::ast::SelectStmt`): the AST, aggregate table, local
count, constant table, and per-node source metadata. -/
structure SelectStmt where
  stmt : Select
  aggregates : List Unit
  locals : Nat
  consts : List Value
  node_meta : Nat

/-- Modelled from the spec: the self-referential statement container
(`tremor_script::srs::Select`).  It owns the statement data; the only
read path is the scoped loan `rent`. -/
structure srs.Select where
  encased : SelectStmt

/-- Scoped-loan accessor of the statement container: invokes the
callback on the borrowed statement views. -/
def srs.Select.rent {α : Type} (s : srs.Select) (f : SelectStmt → α) : α :=
  f s.encased

/-- Modelled from the spec: a generically-parsed statement
(`tremor_script::srs::Stmt`) as handed over by the planner; only the
select shape converts into the fast-path container. -/
inductive Stmt where
  | select : SelectStmt → Stmt
  | script : String → Stmt
  | windowDecl : String → Stmt
  | operatorDecl : String → Stmt

/-- Errors surfaced by construction and evaluation.
`queryGuardNotBool` is `tremor_script::errors::query_guard_not_bool`
(modelled from the spec: carries the statement, the offending clause,
the actual runtime value, and the node metadata). -/
inductive Error where
  | notASelect : Error
  | recursionLimitReached : Error
  | queryGuardNotBool : Select → Expr → Value → Nat → Error
  | runtimeError : String → Error

/-- Conversion of a planner statement into the fast-path container
(`srs::Select::try_new_from_stmt`).  Modelled from the spec: fails
exactly when the statement is not a select statement; no check of
grouping or windowing is performed. -/
def srs.Select.try_new_from_stmt : Stmt → Except Error SelectStmt
  | .select s => .ok s
  | _ => .error .notASelect

/-- Modelled from the spec: the process-wide recursion-depth limit
(`tremor_script::recursion_limit()`), captured once per operator at
construction time. -/
def tremor_script.recursion_limit : Nat := 1024

/-- Per-event evaluation context (`EventContext::new`): ingest
timestamp and origin locator. -/
structure EventContext where
  ingest_ns : Nat
  origin_uri : Option String

/-- Constructor of the per-event context, mirroring
`EventContext::new(event.ingest_ns, event.origin_uri.as_ref())`. -/
def EventContext.new (ingest_ns : Nat) (origin_uri : Option String) : EventContext :=
  ⟨ingest_ns, origin_uri⟩

/-- Aggregate-function table entries (`InvokeAggrFn`); the fast path
always passes the empty table `NO_AGGRS`. -/
structure InvokeAggrFn where
  name : String

/-- The constant `NO_AGGRS: [InvokeAggrFn; 0]` of the source file. -/
def NO_AGGRS : List InvokeAggrFn := []

/-- Evaluation environment (`tremor_script::interpreter::Env`): context,
constant table, aggregate table, node metadata, and the recursion-depth
limit handed to every evaluation. -/
structure Env where
  context : EventContext
  consts : List Value
  aggrs : List InvokeAggrFn
  meta : Nat
  recursion_limit : Nat

/-- Local-variable frame (`LocalStack`); guard clauses always get a
zero-size frame. -/
structure LocalStack where
  values : List (Option Value)

/-- Constructor mirroring `LocalStack::with_size(0)`. -/
def LocalStack.with_size (n : Nat) : LocalStack :=
  ⟨List.replicate n none⟩

/-- Aggregation mode of `ExecOpts`. -/
inductive AggrType where
  | emit : AggrType
  | tick : AggrType

/-- Execution options handed to the interpreter (`ExecOpts`). -/
structure ExecOpts where
  result_needed : Bool
  aggr : AggrType

/-- Modelled from the spec: the guard-expression interpreter
(`tremor_script::interpreter`), total dispatch over node kinds; the
`depth` fuel is consumed by nested invocations and exhausting it fails
with the resource-limit error instead of evaluating further. -/
def Expr.eval : Expr → ExecOpts → Env → Value → Value → Value → LocalStack → Nat →
    Except Error Value
  | .lit v, _, _, _, _, _, _, _ => .ok v
  | .constIdx i, _, env, _, _, _, _, _ => .ok (env.consts.getD i .null)
  | .eventField k, _, _, data, _, _, _, _ =>
    match data.objGet k with
    | some v => .ok v
    | none => .error (.runtimeError "event field not found")
  | .metaField k, _, _, _, _, m, _, _ =>
    match m.objGet k with
    | some v => .ok v
    | none => .error (.runtimeError "meta field not found")
  | .stateField k, _, _, _, state, _, _, _ =>
    match state.objGet k with
    | some v => .ok v
    | none => .error (.runtimeError "state field not found")
  | .ingestNs, _, env, _, _, _, _, _ => .ok (.int env.context.ingest_ns)
  | .gt a b, opts, env, data, state, m, ls, depth =>
    match a.eval opts env data state m ls depth, b.eval opts env data state m ls depth with
    | .ok (.int x), .ok (.int y) => .ok (.bool (decide (y < x)))
    | .error e, _ => .error e
    | _, .error e => .error e
    | _, _ => .error (.runtimeError "gt expects integers")
  | .conj a b, opts, env, data, state, m, ls, depth =>
    match a.eval opts env data state m ls depth, b.eval opts env data state m ls depth with
    | .ok (.bool x), .ok (.bool y) => .ok (.bool (x && y))
    | .error e, _ => .error e
    | _, .error e => .error e
    | _, _ => .error (.runtimeError "and expects booleans")
  | .neg a, opts, env, data, state, m, ls, depth =>
    match a.eval opts env data state m ls depth with
    | .ok (.bool x) => .ok (.bool (!x))
    | .error e => .error e
    | _ => .error (.runtimeError "not expects a boolean")
  | .call a, opts, env, data, state, m, ls, depth =>
    match depth with
    | 0 => .error .recursionLimitReached
    | n + 1 => a.eval opts env data state m ls n

/-- Entry point of guard evaluation, mirroring
`guard.run(opts, &env, data, state, meta, &local_stack)`: evaluation is
bounded by the environment's recursion limit. -/
def Expr.run (e : Expr) (opts : ExecOpts) (env : Env) (data state m : Value)
    (local_stack : LocalStack) : Except Error Value :=
  e.eval opts env data state m local_stack env.recursion_limit

/-- An event (`tremor_pipeline::Event`): payload and metadata, ingest
timestamp, origin locator, and flags.  Modelled from the spec; only the
fields the operator touches are kept, plus flags witnessing that
forwarding preserves every field. -/
structure Event where
  id : Nat
  data : Value
  meta : Value
  ingest_ns : Nat
  origin_uri : Option String
  is_batch : Bool
  transactional : Bool

/-- Result of one `on_event` call (`EventAndInsights`): outgoing
`(port, event)` pairs and insight signals. -/
structure EventAndInsights where
  events : List (String × Event)
  insights : List Event

/-- The default output port name `OUT`. -/
def OUT : String := "out"

/-- The `EventAndInsights::default()` value: no events, no insights. -/
def EventAndInsights.default : EventAndInsights :=
  ⟨[], []⟩

/-- Modelled from the spec: `From<Event> for EventAndInsights`
(`event.into()`): the single unchanged event on the default port, with
no insights. -/
def EventAndInsights.from_event (event : Event) : EventAndInsights :=
  ⟨[(OUT, event)], []⟩

/-- The fast-path select operator (`SimpleSelect`): identifier,
statement container, and the recursion limit captured at construction
time. -/
structure SimpleSelect where
  id : String
  select : srs.Select
  recursion_limit : Nat

/-- Construction (`SimpleSelect::with_stmt`): convert the planner
statement into the container; on success store the identifier, the
converted statement, and the process-wide recursion limit. -/
def SimpleSelect.with_stmt (id : String) (stmt : Stmt) : Except Error SimpleSelect :=
  match srs.Select.try_new_from_stmt stmt with
  | .ok s => .ok { id := id, select := ⟨s⟩, recursion_limit := tremor_script.recursion_limit }
  | .error e => .error e

/-- The execution options used for every guard run
(`SimpleSelect::opts`). -/
def SimpleSelect.opts : ExecOpts :=
  { result_needed := true, aggr := .emit }

/-- The evaluation environment built inside `on_event`: the context, the
loaned constants and node metadata, the empty aggregate table, and the
operator's stored recursion limit. -/
def SimpleSelect.mkEnv (op : SimpleSelect) (ctx : EventContext) (consts : List Value)
    (node_meta : Nat) : Env :=
  { context := ctx, consts := consts, aggrs := NO_AGGRS, meta := node_meta,
    recursion_limit := op.recursion_limit }

/-- One guard gate of `on_event`: absent passes; present is evaluated
and its boolean result extracted, a non-boolean result failing with
`query_guard_not_bool`. -/
def runGuardGate (opts : ExecOpts) (env : Env) (stmt : Select) (node_meta : Nat)
    (data state m : Value) (local_stack : LocalStack) :
    Option Expr → Except Error Bool
  | none => .ok true
  | some guard =>
    match guard.run opts env data state m local_stack with
    | .error e => .error e
    | .ok test =>
      match test.as_bool with
      | some b => .ok b
      | none => .error (.queryGuardNotBool stmt guard test node_meta)

/-- The per-event entry point (`SimpleSelect::on_event`).  The Rust
signature takes `&mut self` and `&mut state`; the embedding threads both
explicitly and returns them alongside the `Result`.  The body mirrors
the source: build the zero-size local stack and the context, loan the
statement, build the environment, run the where-gate then the
having-gate, and forward, drop, or fail. -/
def SimpleSelect.on_event (op : SimpleSelect) (_uid : Nat) (_port : String)
    (state : Value) (event : Event) :
    SimpleSelect × Value × Except Error EventAndInsights :=
  let opts := SimpleSelect.opts
  let res :=
    op.select.rent fun sel =>
      let stmt := sel.stmt
      let local_stack := LocalStack.with_size 0
      let ctx := EventContext.new event.ingest_ns event.origin_uri
      let env := op.mkEnv ctx sel.consts sel.node_meta
      match runGuardGate opts env stmt sel.node_meta event.data state event.meta local_stack
          stmt.maybe_where with
      | .error e => .error e
      | .ok false => .ok EventAndInsights.default
      | .ok true =>
        match runGuardGate opts env stmt sel.node_meta event.data state event.meta local_stack
            stmt.maybe_having with
        | .error e => .error e
        | .ok false => .ok EventAndInsights.default
        | .ok true => .ok (EventAndInsights.from_event event)
  (op, state, res)

/-- Nested invocations of depth `n`, used to exercise the
recursion-depth bound. -/
def callNest : Nat → Expr → Expr
  | 0, e => e
  | n + 1, e => .call (callNest n e)

end TremorSimpleSelect

namespace TremorSimpleSelect

/-- Helper: evaluating a nest of invocations deeper than the remaining
fuel fails with the resource-limit error. -/
theorem eval_callNest_exceeds (e : Expr) (opts : ExecOpts) (env : Env)
    (data state m : Value) (ls : LocalStack) :
    ∀ n depth : Nat, depth < n →
      Expr.eval (callNest n e) opts env data state m ls depth =
        .error .recursionLimitReached := by
  intro n
  induction n with
  | zero => intro depth h; exact absurd h (Nat.not_lt_zero depth)
  | succ k ih =>
    intro depth h
    cases depth with
    | zero => rfl
    | succ d =>
      have hstep : Expr.eval (callNest (k + 1) e) opts env data state m ls (d + 1) =
          Expr.eval (callNest k e) opts env data state m ls d := rfl
      rw [hstep]
      exact ih d (Nat.lt_of_succ_lt_succ h)

end TremorSimpleSelect

namespace TremorSimpleSelect

/-- Helper: an absent guard clause passes the gate. -/
theorem runGuardGate_none (opts : ExecOpts) (env : Env) (stmt : Select) (nm : Nat)
    (data state m : Value) (ls : LocalStack) :
    runGuardGate opts env stmt nm data state m ls none = .ok true := rfl

/-- Helper: a present guard clause that evaluates to a boolean passes
that boolean out of the gate. -/
theorem runGuardGate_some_bool (opts : ExecOpts) (env : Env) (stmt : Select) (nm : Nat)
    (data state m : Value) (ls : LocalStack) (g : Expr) (b : Bool)
    (h : g.run opts env data state m ls = .ok (.bool b)) :
    runGuardGate opts env stmt nm data state m ls (some g) = .ok b := by
  simp [runGuardGate, h, Value.as_bool]

/-- Helper: a present guard clause that evaluates to a non-boolean value
fails the gate with the guard-type error. -/
theorem runGuardGate_some_notbool (opts : ExecOpts) (env : Env) (stmt : Select) (nm : Nat)
    (data state m : Value) (ls : LocalStack) (g : Expr) (v : Value)
    (hrun : g.run opts env data state m ls = .ok v) (hv : v.as_bool = none) :
    runGuardGate opts env stmt nm data state m ls (some g) =
      .error (.queryGuardNotBool stmt g v nm) := by
  simp [runGuardGate, hrun, hv]

/-- Helper: the gate over an optional clause that is absent or evaluates
to boolean `true` yields pass. -/
theorem runGuardGate_pass (opts : ExecOpts) (env : Env) (stmt : Select) (nm : Nat)
    (data state m : Value) (ls : LocalStack) (og : Option Expr)
    (h : ∀ g, og = some g → g.run opts env data state m ls = .ok (.bool true)) :
    runGuardGate opts env stmt nm data state m ls og = .ok true := by
  cases hog : og with
  | none => rfl
  | some g => exact runGuardGate_some_bool opts env stmt nm data state m ls g true (h g hog)

/-- C1: for every event for which the where-clause and the having-clause
each evaluate to boolean true or are absent, `on_event` succeeds with
exactly one output event identical to the input event and leaves the
operator and the shared state unchanged; in particular, when both
clauses are absent the operator is a strict pass-through. -/
theorem on_event_identity_pass_through (op : SimpleSelect) (uid : Nat) (port : String)
    (state : Value) (event : Event)
    (hw : ∀ g, op.select.encased.stmt.maybe_where = some g →
      g.run SimpleSelect.opts
        (op.mkEnv (EventContext.new event.ingest_ns event.origin_uri)
          op.select.encased.consts op.select.encased.node_meta)
        event.data state event.meta (LocalStack.with_size 0) = .ok (.bool true))
    (hh : ∀ g, op.select.encased.stmt.maybe_having = some g →
      g.run SimpleSelect.opts
        (op.mkEnv (EventContext.new event.ingest_ns event.origin_uri)
          op.select.encased.consts op.select.encased.node_meta)
        event.data state event.meta (LocalStack.with_size 0) = .ok (.bool true)) :
    op.on_event uid port state event = (op, state, .ok ⟨[(OUT, event)], []⟩) := by
  have hgw := runGuardGate_pass SimpleSelect.opts
    (op.mkEnv (EventContext.new event.ingest_ns event.origin_uri)
      op.select.encased.consts op.select.encased.node_meta)
    op.select.encased.stmt op.select.encased.node_meta event.data state event.meta
    (LocalStack.with_size 0) op.select.encased.stmt.maybe_where hw
  have hgh := runGuardGate_pass SimpleSelect.opts
    (op.mkEnv (EventContext.new event.ingest_ns event.origin_uri)
      op.select.encased.consts op.select.encased.node_meta)
    op.select.encased.stmt op.select.encased.node_meta event.data state event.meta
    (LocalStack.with_size 0) op.select.encased.stmt.maybe_having hh
  simp [SimpleSelect.on_event, srs.Select.rent, hgw, hgh, EventAndInsights.from_event]

/-- C2: for every event for which the where-clause is present and
evaluates to boolean false, `on_event` succeeds with an empty result:
zero output events, zero insights, and no error. -/
theorem on_event_where_false_drops (op : SimpleSelect) (uid : Nat) (port : String)
    (state : Value) (event : Event) (g : Expr) (v : Value)
    (hwg : op.select.encased.stmt.maybe_where = some g)
    (hrun : g.run SimpleSelect.opts
      (op.mkEnv (EventContext.new event.ingest_ns event.origin_uri)
        op.select.encased.consts op.select.encased.node_meta)
      event.data state event.meta (LocalStack.with_size 0) = .ok v)
    (hv : v.as_bool = some false) :
    op.on_event uid port state event = (op, state, .ok ⟨[], []⟩) := by
  have hb : v = .bool false := by cases v <;> simp_all [Value.as_bool]
  subst hb
  have hgw := runGuardGate_some_bool SimpleSelect.opts
    (op.mkEnv (EventContext.new event.ingest_ns event.origin_uri)
      op.select.encased.consts op.select.encased.node_meta)
    op.select.encased.stmt op.select.encased.node_meta event.data state event.meta
    (LocalStack.with_size 0) g false hrun
  simp [SimpleSelect.on_event, srs.Select.rent, hwg, hgw, EventAndInsights.default]

/-- C3: for every event for which the where-clause passes (true or
absent) and the having-clause is present and evaluates to boolean false,
`on_event` succeeds with an empty result and no error. -/
theorem on_event_having_false_drops (op : SimpleSelect) (uid : Nat) (port : String)
    (state : Value) (event : Event) (g : Expr) (v : Value)
    (hw : ∀ gw, op.select.encased.stmt.maybe_where = some gw →
      gw.run SimpleSelect.opts
        (op.mkEnv (EventContext.new event.ingest_ns event.origin_uri)
          op.select.encased.consts op.select.encased.node_meta)
        event.data state event.meta (LocalStack.with_size 0) = .ok (.bool true))
    (hhg : op.select.encased.stmt.maybe_having = some g)
    (hrun : g.run SimpleSelect.opts
      (op.mkEnv (EventContext.new event.ingest_ns event.origin_uri)
        op.select.encased.consts op.select.encased.node_meta)
      event.data state event.meta (LocalStack.with_size 0) = .ok v)
    (hv : v.as_bool = some false) :
    op.on_event uid port state event = (op, state, .ok ⟨[], []⟩) := by
  have hb : v = .bool false := by cases v <;> simp_all [Value.as_bool]
  subst hb
  have hgw := runGuardGate_pass SimpleSelect.opts
    (op.mkEnv (EventContext.new event.ingest_ns event.origin_uri)
      op.select.encased.consts op.select.encased.node_meta)
    op.select.encased.stmt op.select.encased.node_meta event.data state event.meta
    (LocalStack.with_size 0) op.select.encased.stmt.maybe_where hw
  have hgh := runGuardGate_some_bool SimpleSelect.opts
    (op.mkEnv (EventContext.new event.ingest_ns event.origin_uri)
      op.select.encased.consts op.select.encased.node_meta)
    op.select.encased.stmt op.select.encased.node_meta event.data state event.meta
    (LocalStack.with_size 0) g false hrun
  simp [SimpleSelect.on_event, srs.Select.rent, hgw, hhg, hgh, EventAndInsights.default]

end TremorSimpleSelect

namespace TremorSimpleSelect

/-- C4: a present guard clause that evaluates successfully to a
non-boolean runtime value makes `on_event` fail with the guard-type
error carrying the statement, the offending clause and the actual value,
and produce no output: the first conjunct covers a non-boolean
where-clause, the second a passing where-clause followed by a
non-boolean having-clause. -/
theorem on_event_guard_not_bool_fails (op : SimpleSelect) (uid : Nat) (port : String)
    (state : Value) (event : Event) :
    (∀ g v, op.select.encased.stmt.maybe_where = some g →
      g.run SimpleSelect.opts
        (op.mkEnv (EventContext.new event.ingest_ns event.origin_uri)
          op.select.encased.consts op.select.encased.node_meta)
        event.data state event.meta (LocalStack.with_size 0) = .ok v →
      v.as_bool = none →
      op.on_event uid port state event = (op, state,
        .error (.queryGuardNotBool op.select.encased.stmt g v op.select.encased.node_meta))) ∧
    (∀ g v, (∀ gw, op.select.encased.stmt.maybe_where = some gw →
        gw.run SimpleSelect.opts
          (op.mkEnv (EventContext.new event.ingest_ns event.origin_uri)
            op.select.encased.consts op.select.encased.node_meta)
          event.data state event.meta (LocalStack.with_size 0) = .ok (.bool true)) →
      op.select.encased.stmt.maybe_having = some g →
      g.run SimpleSelect.opts
        (op.mkEnv (EventContext.new event.ingest_ns event.origin_uri)
          op.select.encased.consts op.select.encased.node_meta)
        event.data state event.meta (LocalStack.with_size 0) = .ok v →
      v.as_bool = none →
      op.on_event uid port state event = (op, state,
        .error (.queryGuardNotBool op.select.encased.stmt g v op.select.encased.node_meta))) := by
  constructor
  · intro g v hwg hrun hv
    have hgw := runGuardGate_some_notbool SimpleSelect.opts
      (op.mkEnv (EventContext.new event.ingest_ns event.origin_uri)
        op.select.encased.consts op.select.encased.node_meta)
      op.select.encased.stmt op.select.encased.node_meta event.data state event.meta
      (LocalStack.with_size 0) g v hrun hv
    simp [SimpleSelect.on_event, srs.Select.rent, hwg, hgw]
  · intro g v hw hhg hrun hv
    have hgw := runGuardGate_pass SimpleSelect.opts
      (op.mkEnv (EventContext.new event.ingest_ns event.origin_uri)
        op.select.encased.consts op.select.encased.node_meta)
      op.select.encased.stmt op.select.encased.node_meta event.data state event.meta
      (LocalStack.with_size 0) op.select.encased.stmt.maybe_where hw
    have hgh := runGuardGate_some_notbool SimpleSelect.opts
      (op.mkEnv (EventContext.new event.ingest_ns event.origin_uri)
        op.select.encased.consts op.select.encased.node_meta)
      op.select.encased.stmt op.select.encased.node_meta event.data state event.meta
      (LocalStack.with_size 0) g v hrun hv
    simp [SimpleSelect.on_event, srs.Select.rent, hgw, hhg, hgh]

/-- C5: the where-guard is evaluated before the having-guard, and when
the where-clause evaluates to boolean false or to a non-boolean value,
processing stops immediately and the having-guard is never evaluated:
when the where-result is false the call is the clean drop whatever the
having-clause is (its result is identical for any two having-clauses);
when the where-result is non-boolean the call fails with the guard-type
error naming the where-clause as the offending clause, again whatever
the having-clause is — the having-clause influences nothing except as
inert payload of the carried statement. -/
theorem on_event_where_evaluated_first (id target : String) (w : Expr)
    (h1 h2 : Option Expr) (windows : List String) (gb : Option String)
    (aggrs : List Unit) (locals : Nat) (consts : List Value) (nm rl : Nat)
    (uid : Nat) (port : String) (state : Value) (event : Event) (v : Value)
    (hrun : w.run SimpleSelect.opts
      ((SimpleSelect.mk id ⟨⟨⟨target, some w, h1, windows, gb⟩, aggrs, locals, consts, nm⟩⟩ rl).mkEnv
        (EventContext.new event.ingest_ns event.origin_uri) consts nm)
      event.data state event.meta (LocalStack.with_size 0) = .ok v) :
    (v.as_bool = some false →
      ((SimpleSelect.mk id ⟨⟨⟨target, some w, h1, windows, gb⟩, aggrs, locals, consts, nm⟩⟩ rl).on_event
          uid port state event).2.2 =
        ((SimpleSelect.mk id ⟨⟨⟨target, some w, h2, windows, gb⟩, aggrs, locals, consts, nm⟩⟩ rl).on_event
          uid port state event).2.2 ∧
      ((SimpleSelect.mk id ⟨⟨⟨target, some w, h1, windows, gb⟩, aggrs, locals, consts, nm⟩⟩ rl).on_event
          uid port state event).2.2 = .ok ⟨[], []⟩) ∧
    (v.as_bool = none →
      ((SimpleSelect.mk id ⟨⟨⟨target, some w, h1, windows, gb⟩, aggrs, locals, consts, nm⟩⟩ rl).on_event
          uid port state event).2.2 =
        .error (.queryGuardNotBool ⟨target, some w, h1, windows, gb⟩ w v nm) ∧
      ((SimpleSelect.mk id ⟨⟨⟨target, some w, h2, windows, gb⟩, aggrs, locals, consts, nm⟩⟩ rl).on_event
          uid port state event).2.2 =
        .error (.queryGuardNotBool ⟨target, some w, h2, windows, gb⟩ w v nm)) := by
  have hrun2 : w.run SimpleSelect.opts
      ((SimpleSelect.mk id ⟨⟨⟨target, some w, h2, windows, gb⟩, aggrs, locals, consts, nm⟩⟩ rl).mkEnv
        (EventContext.new event.ingest_ns event.origin_uri) consts nm)
      event.data state event.meta (LocalStack.with_size 0) = .ok v := hrun
  constructor
  · intro hv
    have hb : v = .bool false := by cases v <;> simp_all [Value.as_bool]
    subst hb
    constructor <;>
      simp [SimpleSelect.on_event, srs.Select.rent,
        runGuardGate_some_bool _ _ _ _ _ _ _ _ _ false hrun,
        runGuardGate_some_bool _ _ _ _ _ _ _ _ _ false hrun2,
        EventAndInsights.default]
  · intro hv
    constructor <;>
      simp [SimpleSelect.on_event, srs.Select.rent,
        runGuardGate_some_notbool _ _ _ _ _ _ _ _ _ _ hrun hv,
        runGuardGate_some_notbool _ _ _ _ _ _ _ _ _ _ hrun2 hv]

/-- C6: every successful `on_event` result carries zero outgoing events
or exactly the one input event on the default port, and always zero
insight signals: there is no partial success. -/
theorem on_event_result_shape (op : SimpleSelect) (uid : Nat) (port : String)
    (state : Value) (event : Event) (r : EventAndInsights)
    (h : (op.on_event uid port state event).2.2 = .ok r) :
    (r.events = [] ∨ r.events = [(OUT, event)]) ∧ r.insights = [] := by
  simp only [SimpleSelect.on_event, srs.Select.rent] at h
  split at h
  · exact absurd h (by simp)
  · cases h
    exact ⟨Or.inl rfl, rfl⟩
  · split at h
    · exact absurd h (by simp)
    · cases h
      exact ⟨Or.inl rfl, rfl⟩
    · cases h
      exact ⟨Or.inr rfl, rfl⟩

end TremorSimpleSelect

namespace TremorSimpleSelect

/-- C7: the recursion limit stored by construction is exactly the
process-wide limit, the environment built for every guard evaluation in
`on_event` carries exactly the operator's stored limit, and expression
evaluation that nests beyond the environment's limit fails with the
resource-limit error instead of evaluating further. -/
theorem recursion_limit_captured_and_enforced (id : String) (stmt : Stmt)
    (op : SimpleSelect) (hok : SimpleSelect.with_stmt id stmt = .ok op) :
    op.recursion_limit = tremor_script.recursion_limit ∧
    (∀ ctx consts nm, (op.mkEnv ctx consts nm).recursion_limit = op.recursion_limit) ∧
    (∀ (e : Expr) (opts : ExecOpts) (env : Env) (data state m : Value) (ls : LocalStack)
        (n : Nat), env.recursion_limit < n →
      Expr.run (callNest n e) opts env data state m ls = .error .recursionLimitReached) := by
  refine ⟨?_, fun ctx consts nm => rfl, fun e opts env data state m ls n h =>
    eval_callNest_exceeds e opts env data state m ls n env.recursion_limit h⟩
  cases stmt with
  | select s =>
    simp only [SimpleSelect.with_stmt, srs.Select.try_new_from_stmt, Except.ok.injEq] at hok
    rw [← hok]
  | script n => simp [SimpleSelect.with_stmt, srs.Select.try_new_from_stmt] at hok
  | windowDecl n => simp [SimpleSelect.with_stmt, srs.Select.try_new_from_stmt] at hok
  | operatorDecl n => simp [SimpleSelect.with_stmt, srs.Select.try_new_from_stmt] at hok

/-- C8: construction via `with_stmt` succeeds exactly when the supplied
statement converts into the container's representation (it is a select
statement), with no check on grouping or windowing constructs; on
success the operator stores the given identifier, the converted
statement, and the process-wide recursion limit. -/
theorem with_stmt_characterisation (id : String) (stmt : Stmt) :
    ((∃ op, SimpleSelect.with_stmt id stmt = .ok op) ↔ ∃ s, stmt = .select s) ∧
    (∀ s, stmt = .select s →
      SimpleSelect.with_stmt id stmt =
        .ok ⟨id, ⟨s⟩, tremor_script.recursion_limit⟩) := by
  cases stmt with
  | select s =>
    refine ⟨⟨fun _ => ⟨s, rfl⟩, fun _ => ⟨⟨id, ⟨s⟩, tremor_script.recursion_limit⟩, rfl⟩⟩, ?_⟩
    intro s' hs'
    cases hs'
    rfl
  | script n =>
    exact ⟨by simp [SimpleSelect.with_stmt, srs.Select.try_new_from_stmt], by simp⟩
  | windowDecl n =>
    exact ⟨by simp [SimpleSelect.with_stmt, srs.Select.try_new_from_stmt], by simp⟩
  | operatorDecl n =>
    exact ⟨by simp [SimpleSelect.with_stmt, srs.Select.try_new_from_stmt], by simp⟩

/-- C9: `on_event` never modifies the operator: after any call, the
identifier, the statement container, and the stored recursion limit
equal their values before the call. -/
theorem on_event_preserves_operator (op : SimpleSelect) (uid : Nat) (port : String)
    (state : Value) (event : Event) :
    (op.on_event uid port state event).1.id = op.id ∧
    (op.on_event uid port state event).1.select = op.select ∧
    (op.on_event uid port state event).1.recursion_limit = op.recursion_limit :=
  ⟨rfl, rfl, rfl⟩

/-- C10: `on_event` is deterministic: for a fixed operator, two
invocations with equal shared-state values and equal events return equal
results (the full operator, state, result triple, hence also equal
post-states). -/
theorem on_event_deterministic (op : SimpleSelect) (uid : Nat) (port : String)
    (state₁ state₂ : Value) (event₁ event₂ : Event)
    (hs : state₁ = state₂) (he : event₁ = event₂) :
    op.on_event uid port state₁ event₁ = op.on_event uid port state₂ event₂ := by
  rw [hs, he]

end TremorSimpleSelect

namespace TremorSimpleSelect

/-- Example guard `event.a > 0`, true on the example event. -/
def exGuardTrue : Expr := .gt (.eventField "a") (.lit (.int 0))

/-- Example guard `event.a > 5`, false on the example event. -/
def exGuardFalse : Expr := .gt (.eventField "a") (.lit (.int 5))

/-- Example guard `event.a`, evaluating to a non-boolean value. -/
def exGuardNotBool : Expr := .eventField "a"

/-- Example select AST with the given optional clauses. -/
def exSelect (w h : Option Expr) : Select := ⟨"event", w, h, [], none⟩

/-- Example select statement with support data. -/
def exStmt (w h : Option Expr) : SelectStmt := ⟨exSelect w h, [], 0, [], 7⟩

/-- Example operator with the given optional clauses. -/
def exOp (w h : Option Expr) : SimpleSelect :=
  ⟨"op", ⟨exStmt w h⟩, tremor_script.recursion_limit⟩

/-- Example event with payload holding field `a = 1`. -/
def exEvent : Event :=
  ⟨1, .obj [("a", .int 1)], .obj [], 42, some "tremor-source", false, false⟩

/-- Witness for C1 at a concrete operator whose where- and
having-clauses both evaluate to boolean true on the example event. -/
theorem on_event_identity_pass_through_witness :
    (exOp (some exGuardTrue) (some exGuardTrue)).on_event 0 "in" .null exEvent =
      (exOp (some exGuardTrue) (some exGuardTrue), .null, .ok ⟨[(OUT, exEvent)], []⟩) :=
  on_event_identity_pass_through (exOp (some exGuardTrue) (some exGuardTrue)) 0 "in"
    .null exEvent
    (by intro g hg
        simp only [exOp, exStmt, exSelect, Option.some.injEq] at hg
        subst hg
        rfl)
    (by intro g hg
        simp only [exOp, exStmt, exSelect, Option.some.injEq] at hg
        subst hg
        rfl)

/-- Witness for C2 at a concrete operator whose where-clause evaluates
to boolean false on the example event. -/
theorem on_event_where_false_drops_witness :
    (exOp (some exGuardFalse) none).on_event 0 "in" .null exEvent =
      (exOp (some exGuardFalse) none, .null, .ok ⟨[], []⟩) :=
  on_event_where_false_drops (exOp (some exGuardFalse) none) 0 "in" .null exEvent
    exGuardFalse (.bool false) rfl rfl rfl

/-- Witness for C3 at a concrete operator with the where-clause absent
and a having-clause that evaluates to boolean false. -/
theorem on_event_having_false_drops_witness :
    (exOp none (some exGuardFalse)).on_event 0 "in" .null exEvent =
      (exOp none (some exGuardFalse), .null, .ok ⟨[], []⟩) :=
  on_event_having_false_drops (exOp none (some exGuardFalse)) 0 "in" .null exEvent
    exGuardFalse (.bool false)
    (by intro gw hgw; simp [exOp, exStmt, exSelect] at hgw)
    rfl rfl rfl

/-- Witness for C4 at a concrete operator whose where-clause evaluates
to the non-boolean value `1`. -/
theorem on_event_guard_not_bool_fails_witness :
    (exOp (some exGuardNotBool) none).on_event 0 "in" .null exEvent =
      (exOp (some exGuardNotBool) none, .null,
        .error (.queryGuardNotBool (exSelect (some exGuardNotBool) none)
          exGuardNotBool (.int 1) 7)) :=
  (on_event_guard_not_bool_fails (exOp (some exGuardNotBool) none) 0 "in" .null
    exEvent).1 exGuardNotBool (.int 1) rfl rfl rfl

/-- Witness for C5 at a concrete operator whose where-clause evaluates
to boolean false: the result is the clean drop and is identical whether
the having-clause is present or absent. -/
theorem on_event_where_evaluated_first_witness :
    ((SimpleSelect.mk "op" ⟨⟨⟨"event", some exGuardFalse, some exGuardTrue, [], none⟩,
        [], 0, [], 7⟩⟩ 1024).on_event 0 "in" .null exEvent).2.2 =
      ((SimpleSelect.mk "op" ⟨⟨⟨"event", some exGuardFalse, none, [], none⟩,
        [], 0, [], 7⟩⟩ 1024).on_event 0 "in" .null exEvent).2.2 ∧
    ((SimpleSelect.mk "op" ⟨⟨⟨"event", some exGuardFalse, some exGuardTrue, [], none⟩,
        [], 0, [], 7⟩⟩ 1024).on_event 0 "in" .null exEvent).2.2 = .ok ⟨[], []⟩ :=
  (on_event_where_evaluated_first "op" "event" exGuardFalse (some exGuardTrue) none
    [] none [] 0 [] 7 1024 0 "in" .null exEvent (.bool false) rfl).1 rfl

/-- Witness for C6 at a concrete operator with both clauses absent,
whose successful result carries exactly the one input event and no
insights. -/
theorem on_event_result_shape_witness :
    ((⟨[(OUT, exEvent)], []⟩ : EventAndInsights).events = [] ∨
      (⟨[(OUT, exEvent)], []⟩ : EventAndInsights).events = [(OUT, exEvent)]) ∧
    (⟨[(OUT, exEvent)], []⟩ : EventAndInsights).insights = [] :=
  on_event_result_shape (exOp none none) 0 "in" .null exEvent ⟨[(OUT, exEvent)], []⟩ rfl

/-- Witness for C7 at a concrete operator built by `with_stmt`: the
stored limit is the process-wide one, the environment carries it, and a
nest of 1025 invocations exceeds the limit of 1024 and fails with the
resource-limit error. -/
theorem recursion_limit_captured_and_enforced_witness :
    (exOp none none).recursion_limit = tremor_script.recursion_limit ∧
    ((exOp none none).mkEnv (EventContext.new 0 none) [] 0).recursion_limit =
      (exOp none none).recursion_limit ∧
    Expr.run (callNest 1025 (.lit .null)) SimpleSelect.opts
      ((exOp none none).mkEnv (EventContext.new 0 none) [] 0) .null .null .null
      (LocalStack.with_size 0) = .error .recursionLimitReached := by
  obtain ⟨a, b, c⟩ := recursion_limit_captured_and_enforced "op"
    (.select (exStmt none none)) (exOp none none) rfl
  exact ⟨a, b (EventContext.new 0 none) [] 0,
    c (.lit .null) SimpleSelect.opts ((exOp none none).mkEnv (EventContext.new 0 none) [] 0)
      .null .null .null (LocalStack.with_size 0) 1025 (by decide)⟩

/-- Example select statement carrying window and group-by constructs,
used to exhibit that construction performs no check of them. -/
def exWindowedStmt : SelectStmt :=
  ⟨⟨"event", none, none, ["w15s"], some "g"⟩, [], 0, [], 9⟩

/-- Witness for C8 at a concrete select statement that carries a window
and a group-by: construction still succeeds and stores the identifier,
the statement, and the process-wide recursion limit. -/
theorem with_stmt_characterisation_witness :
    SimpleSelect.with_stmt "op8" (.select exWindowedStmt) =
      .ok ⟨"op8", ⟨exWindowedStmt⟩, tremor_script.recursion_limit⟩ :=
  (with_stmt_characterisation "op8" (.select exWindowedStmt)).2 exWindowedStmt rfl

/-- Witness for C10 at a concrete operator, state and event. -/
theorem on_event_deterministic_witness :
    (exOp none none).on_event 0 "in" .null exEvent =
      (exOp none none).on_event 0 "in" .null exEvent :=
  on_event_deterministic (exOp none none) 0 "in" .null .null exEvent exEvent rfl rfl

end TremorSimpleSelect
